import Mathlib

/-!
Shallow embedding of the two command-line utilities of this repository:

* the Validation Tool (`validate-google-auth.ts`): checks three required
  environment variables, the shape of the Google callback URL, and the
  presence of the Google auth module registration in `medusa-config.ts`,
  then aggregates five `ValidationResult`s into a report and an exit code;
* the Setup Tool (`setup-google-auth.ts`): copies `.env.template` to `.env`
  when the latter is absent.

The process environment is modelled as a partial map `String → Option String`
(a variable that is unset maps to `none`; JavaScript's falsy test `!value`
is true exactly when the variable is unset or its value is the empty
string).  The WHATWG URL parser used by `new URL(...)` is standard-library
code, not code of this repository, so it is an abstract parameter
`parseURL : String → Option URL`: `none` models the constructor throwing,
`some url` models a successful parse with path component `url.pathname`.
Filesystem reads are modelled by explicit state values.  JavaScript's
`String.prototype.includes` is modelled by `jsIncludes`, substring
containment on the sequence of characters.
-/

/-- Result record produced by every individual check
(`interface ValidationResult` in the source). -/
structure ValidationResult where
  success : Bool
  message : String
deriving DecidableEq

/-- An environment snapshot: maps a variable name to its value, `none`
when the variable is unset. -/
def Env : Type := String → Option String

/-- Does the character list start with the pattern list? -/
def startsWithL : List Char → List Char → Bool
  | [], _ => true
  | _ :: _, [] => false
  | p :: ps, c :: cs => p == c && startsWithL ps cs

/-- Does the character list contain the pattern list as a contiguous
sub-sequence starting at some position? -/
def containsSubL (pat : List Char) : List Char → Bool
  | [] => startsWithL pat []
  | c :: cs => startsWithL pat (c :: cs) || containsSubL pat cs

/-- JavaScript `s.includes(pat)`: substring containment anywhere in `s`. -/
def jsIncludes (s pat : String) : Bool :=
  containsSubL pat.toList s.toList

/-- The fixed ordered list of required variable names
(`requiredVars` in `validateEnvironmentVariables`). -/
def requiredVars : List String :=
  ["GOOGLE_CLIENT_ID", "GOOGLE_CLIENT_SECRET", "GOOGLE_CALLBACK_URL"]

/-- The placeholder heuristic of `validateEnvironmentVariables`: the value
contains `your_`, contains `_here`, or equals one of two placeholder
literals. -/
def isPlaceholderValue (value : String) : Bool :=
  jsIncludes value "your_" || jsIncludes value "_here" ||
    value == "your_google_client_id" || value == "your_google_client_secret"

/-- Modelled from the claim wording of C9 only, for comparison with
`isPlaceholderValue`: the two substring tests alone. -/
def placeholderSubstringsOnly (value : String) : Bool :=
  jsIncludes value "your_" || jsIncludes value "_here"

/-- Failure message for a missing (unset or empty) variable. -/
def missingVarMsg (varName : String) : String :=
  "❌ Missing required environment variable: " ++ varName

/-- Failure message for a placeholder value. -/
def placeholderMsg (varName : String) : String :=
  "❌ Environment variable " ++ varName ++
    " contains placeholder value. Please update with actual Google OAuth credentials."

/-- Success message for a configured variable. -/
def configuredMsg (varName : String) : String :=
  "✅ " ++ varName ++ " is configured"

/-- The body of the `for` loop of `validateEnvironmentVariables`: the one
`ValidationResult` pushed for a single variable name. -/
def checkEnvVar (env : Env) (varName : String) : ValidationResult :=
  match env varName with
  | none => ⟨false, missingVarMsg varName⟩
  | some value =>
    if value = "" then ⟨false, missingVarMsg varName⟩
    else if isPlaceholderValue value then ⟨false, placeholderMsg varName⟩
    else ⟨true, configuredMsg varName⟩

/-- `validateEnvironmentVariables`: one result per required variable,
in list order. -/
def validateEnvironmentVariables (env : Env) : List ValidationResult :=
  requiredVars.map (checkEnvVar env)

/-- The part of a parsed WHATWG URL that the Validation Tool inspects. -/
structure URL where
  pathname : String
deriving DecidableEq

/-- `validateCallbackUrl`, parameterised by the standard library's URL
parser (`none` models the `new URL` constructor throwing, caught by the
source's `try`/`catch`). -/
def validateCallbackUrl (parseURL : String → Option URL) (env : Env) :
    ValidationResult :=
  match env "GOOGLE_CALLBACK_URL" with
  | none => ⟨false, "❌ GOOGLE_CALLBACK_URL is not set"⟩
  | some callbackUrl =>
    if callbackUrl = "" then ⟨false, "❌ GOOGLE_CALLBACK_URL is not set"⟩
    else
      match parseURL callbackUrl with
      | some url =>
        if jsIncludes url.pathname "/auth/callback" then
          ⟨true, "✅ GOOGLE_CALLBACK_URL is properly formatted: " ++ callbackUrl⟩
        else
          ⟨false, "❌ GOOGLE_CALLBACK_URL should end with \x27/auth/callback\x27, got: "
            ++ url.pathname⟩
      | none =>
        ⟨false, "❌ GOOGLE_CALLBACK_URL is not a valid URL: " ++ callbackUrl⟩

/-- The observable state of `medusa-config.ts` as seen by `checkConfigFile`:
absent, present but failing to read (the caught exception's message), or
present with the given text. -/
inductive ConfigFileState where
  | absent
  | readError (errMessage : String)
  | content (text : String)
deriving DecidableEq

/-- The module-identifier literal searched for in `medusa-config.ts`. -/
def googleAuthModuleId : String := "@medusajs/medusa/auth-google"

/-- `checkConfigFile`: total on every filesystem state; every outcome is a
returned `ValidationResult` (the source wraps the whole body in
`try`/`catch`, so no exception escapes). -/
def checkConfigFile : ConfigFileState → ValidationResult
  | ConfigFileState.absent =>
    ⟨false, "❌ medusa-config.ts file not found"⟩
  | ConfigFileState.readError e =>
    ⟨false, "❌ Error reading medusa-config.ts: " ++ e⟩
  | ConfigFileState.content text =>
    if jsIncludes text googleAuthModuleId then
      ⟨true, "✅ Google Auth Module is configured in medusa-config.ts"⟩
    else
      ⟨false, "❌ Google Auth Module not found in medusa-config.ts"⟩

/-- `main`'s aggregation: `[...envResults, callbackResult, configResult]`. -/
def allResults (env : Env) (parseURL : String → Option URL)
    (fs : ConfigFileState) : List ValidationResult :=
  validateEnvironmentVariables env ++
    [validateCallbackUrl parseURL env, checkConfigFile fs]

/-- `main`'s `failedResults`: the results whose `success` flag is false. -/
def failedResults (env : Env) (parseURL : String → Option URL)
    (fs : ConfigFileState) : List ValidationResult :=
  (allResults env parseURL fs).filter (fun r => !r.success)

/-- `main`'s exit code: 0 when no check failed, 1 otherwise. -/
def mainExitCode (env : Env) (parseURL : String → Option URL)
    (fs : ConfigFileState) : Nat :=
  if (failedResults env parseURL fs).length = 0 then 0 else 1

/-- The grouped report printed by `main`: three labelled headings, each
result rendered as its message indented by two spaces, in aggregation
order. -/
def reportLines (env : Env) (parseURL : String → Option URL)
    (fs : ConfigFileState) : List String :=
  ["Environment Variables:"] ++
    (validateEnvironmentVariables env).map (fun r => "  " ++ r.message) ++
    ["Callback URL:", "  " ++ (validateCallbackUrl parseURL env).message] ++
    ["Configuration:", "  " ++ (checkConfigFile fs).message]

/-- Filesystem state seen by the Setup Tool: the contents of `.env` and of
`.env.template`, `none` meaning the file does not exist. -/
structure SetupFS where
  envFile : Option String
  templateFile : Option String
deriving DecidableEq

/-- Message emitted when `.env` already exists. -/
def alreadyExistsMsg : String :=
  "📋 .env file already exists. Please manually update it with your Google OAuth credentials."

/-- Second line emitted when `.env` already exists. -/
def requiredVarsLine : String :=
  "   Required variables: GOOGLE_CLIENT_ID, GOOGLE_CLIENT_SECRET, GOOGLE_CALLBACK_URL"

/-- Message emitted when `.env.template` is missing. -/
def templateMissingMsg : String :=
  "❌ .env.template file not found. Please ensure you are in the correct directory."

/-- First message emitted after a successful copy. -/
def createdMsg : String := "✅ Created .env file from template"

/-- `createEnvFile` of the Setup Tool: returns the filesystem state after
the run and the console messages emitted (banner lines elided to the
decision-relevant ones, in emission order). -/
def createEnvFile (fs : SetupFS) : SetupFS × List String :=
  match fs.envFile with
  | some _ => (fs, [alreadyExistsMsg, requiredVarsLine])
  | none =>
    match fs.templateFile with
    | none => (fs, [templateMissingMsg])
    | some templateContent =>
      ({ fs with envFile := some templateContent },
        [createdMsg,
          "📝 Please update the following variables in your .env file:"])

/-- Concrete environment with every variable unset. -/
def envEmpty : Env := fun _ => none

/-- Concrete parser accepting exactly the development callback URL. -/
def parseLocalhost : String → Option URL := fun s =>
  if s = "http://localhost:8000/auth/callback" then some ⟨"/auth/callback"⟩
  else none

/-- Concrete parser whose accepted URL has `/auth/callback` strictly inside
the path, not as a suffix. -/
def parseMid : String → Option URL := fun s =>
  if s = "http://h/auth/callback/extra" then some ⟨"/auth/callback/extra"⟩
  else none

/-- Concrete environment whose callback URL parses with `/auth/callback`
strictly inside the path. -/
def envMid : Env := fun v =>
  if v = "GOOGLE_CALLBACK_URL" then some "http://h/auth/callback/extra"
  else none

/-- Concrete environment holding a malformed callback URL. -/
def envBadUrl : Env := fun v =>
  if v = "GOOGLE_CALLBACK_URL" then some "not-a-url" else none

/-- Concrete parser that rejects every input. -/
def parseNever : String → Option URL := fun _ => none

/-- Concrete Setup Tool state: no `.env`, a template present. -/
def setupStart : SetupFS :=
  ⟨none, some "GOOGLE_CLIENT_ID=your_google_client_id"⟩

/-- Concrete environment holding only the development callback URL. -/
def envA : Env := fun v =>
  if v = "GOOGLE_CALLBACK_URL" then some "http://localhost:8000/auth/callback"
  else none

/-- Concrete environment agreeing with `envA` on `GOOGLE_CALLBACK_URL` and
differing everywhere else. -/
def envB : Env := fun v =>
  if v = "GOOGLE_CALLBACK_URL" then some "http://localhost:8000/auth/callback"
  else some "other"

/-- Concrete environment whose client id is a whitespace-only string. -/
def envWhitespace : Env := fun v =>
  if v = "GOOGLE_CLIENT_ID" then some "   " else none

/-- Every non-empty character list starts with itself. -/
theorem startsWithL_self (l : List Char) : startsWithL l l = true := by
  induction l with
  | nil => rfl
  | cons c cs ih => simp [startsWithL, ih]

/-- A list contains any of its suffixes as a contiguous sub-sequence. -/
theorem containsSubL_append_self (a pat : List Char) :
    containsSubL pat (a ++ pat) = true := by
  induction a with
  | nil =>
    cases pat with
    | nil => rfl
    | cons c cs => simp [containsSubL, startsWithL_self]
  | cons c cs ih => simp [containsSubL, ih]

/-- A concatenation includes its right part as a substring. -/
theorem jsIncludes_append_right (a b : String) : jsIncludes (a ++ b) b = true := by
  unfold jsIncludes
  have hd : (a ++ b).toList = a.toList ++ b.toList := by
    simp [String.toList, String.data_append]
  rw [hd]
  exact containsSubL_append_self _ _

/-- The two exact-equality placeholder literals are subsumed by the
`your_` substring test, so the placeholder heuristic collapses to the two
substring tests. -/
theorem placeholderValue_eq_or (value : String) :
    isPlaceholderValue value =
      (jsIncludes value "your_" || jsIncludes value "_here") := by
  unfold isPlaceholderValue
  by_cases h1 : jsIncludes value "your_" = true
  · simp [h1]
  · have h1f : jsIncludes value "your_" = false := by
      cases hb : jsIncludes value "your_"
      · rfl
      · exact absurd hb h1
    have e1 : (value == "your_google_client_id") = false := by
      cases hb : value == "your_google_client_id"
      · rfl
      · have hv : value = "your_google_client_id" := eq_of_beq hb
        rw [hv] at h1f
        exact absurd h1f (by decide)
    have e2 : (value == "your_google_client_secret") = false := by
      cases hb : value == "your_google_client_secret"
      · rfl
      · have hv : value = "your_google_client_secret" := eq_of_beq hb
        rw [hv] at h1f
        exact absurd h1f (by decide)
    rw [e1, e2]
    simp

/-- C1: the Validation Tool's verdict is the strict conjunction of all five
`ValidationResult`s: exit code 0 exactly when every result has
`success = true`, exit code 1 exactly when at least one result has
`success = false`, and there are exactly five results. -/
theorem C1_exit_code_strict_conjunction (env : Env)
    (parseURL : String → Option URL) (fs : ConfigFileState) :
    (mainExitCode env parseURL fs = 0 ↔
      ∀ r ∈ allResults env parseURL fs, r.success = true)
    ∧ (mainExitCode env parseURL fs = 1 ↔
      ∃ r ∈ allResults env parseURL fs, r.success = false)
    ∧ (allResults env parseURL fs).length = 5 := by
  have key : ((allResults env parseURL fs).filter (fun r => !r.success)).length = 0 ↔
      ∀ r ∈ allResults env parseURL fs, r.success = true := by
    simp [List.length_eq_zero, List.filter_eq_nil_iff]
  have key2 : (¬ ∀ r ∈ allResults env parseURL fs, r.success = true) ↔
      ∃ r ∈ allResults env parseURL fs, r.success = false := by
    push_neg
    simp [Bool.not_eq_true]
  refine ⟨?_, ?_, ?_⟩
  · unfold mainExitCode failedResults
    by_cases hc :
        ((allResults env parseURL fs).filter (fun r => !r.success)).length = 0
    · rw [if_pos hc]
      simpa using key.mp hc
    · rw [if_neg hc]
      constructor
      · intro h
        exact absurd h one_ne_zero
      · intro h
        exact absurd (key.mpr h) hc
  · unfold mainExitCode failedResults
    by_cases hc :
        ((allResults env parseURL fs).filter (fun r => !r.success)).length = 0
    · rw [if_pos hc]
      constructor
      · intro h
        exact absurd h zero_ne_one
      · rintro ⟨r, hr, hf⟩
        have ht := key.mp hc r hr
        rw [ht] at hf
        exact absurd hf (by decide)
    · rw [if_neg hc]
      constructor
      · intro _
        exact key2.mp (fun hall => hc (key.mpr hall))
      · intro _
        rfl
  · simp [allResults, validateEnvironmentVariables, requiredVars]

/-- Witness for C1: with every variable unset and the config file absent,
some result fails and the exit code is 1. -/
theorem C1_exit_code_strict_conjunction_witness :
    mainExitCode envEmpty parseLocalhost ConfigFileState.absent = 1 :=
  (C1_exit_code_strict_conjunction envEmpty parseLocalhost
      ConfigFileState.absent).2.1.mpr
    ⟨⟨false, missingVarMsg "GOOGLE_CLIENT_ID"⟩, by decide, rfl⟩

/-- C2: the environment-variable check yields one result per required
variable, in the fixed list order; for each variable name the result is a
failure naming the variable when the value is unset or empty, a failure
citing a placeholder when the placeholder heuristic matches, and a success
otherwise. -/
theorem C2_env_var_results (env : Env) :
    validateEnvironmentVariables env =
      [checkEnvVar env "GOOGLE_CLIENT_ID",
        checkEnvVar env "GOOGLE_CLIENT_SECRET",
        checkEnvVar env "GOOGLE_CALLBACK_URL"]
    ∧ (validateEnvironmentVariables env).length = 3
    ∧ ∀ varName : String,
        ((env varName = none ∨ env varName = some "") →
          checkEnvVar env varName = ⟨false, missingVarMsg varName⟩)
        ∧ (∀ value, env varName = some value → ¬value = "" →
            isPlaceholderValue value = true →
            checkEnvVar env varName = ⟨false, placeholderMsg varName⟩)
        ∧ (∀ value, env varName = some value → ¬value = "" →
            isPlaceholderValue value = false →
            checkEnvVar env varName = ⟨true, configuredMsg varName⟩) := by
  refine ⟨rfl, rfl, fun varName => ⟨?_, ?_, ?_⟩⟩
  · rintro (h | h) <;> simp [checkEnvVar, h]
  · intro value hv hne hp
    simp [checkEnvVar, hv, hne, hp]
  · intro value hv hne hp
    simp [checkEnvVar, hv, hne, hp]

/-- Witness for C2: with every variable unset, the client-id result is the
missing-variable failure. -/
theorem C2_env_var_results_witness :
    checkEnvVar envEmpty "GOOGLE_CLIENT_ID" =
      ⟨false, missingVarMsg "GOOGLE_CLIENT_ID"⟩ :=
  (((C2_env_var_results envEmpty).2.2) "GOOGLE_CLIENT_ID").1 (Or.inl rfl)

/-- C3: when the callback URL parses, the check succeeds exactly when the
parsed path contains `/auth/callback` anywhere; on success the message
echoes the full URL, on path failure it shows the actual path. -/
theorem C3_callback_path_containment (parseURL : String → Option URL)
    (env : Env) (s : String) (url : URL)
    (hs : env "GOOGLE_CALLBACK_URL" = some s) (hne : ¬s = "")
    (hp : parseURL s = some url) :
    ((validateCallbackUrl parseURL env).success = true ↔
      jsIncludes url.pathname "/auth/callback" = true)
    ∧ (jsIncludes url.pathname "/auth/callback" = true →
        validateCallbackUrl parseURL env =
          ⟨true, "✅ GOOGLE_CALLBACK_URL is properly formatted: " ++ s⟩)
    ∧ (jsIncludes url.pathname "/auth/callback" = false →
        validateCallbackUrl parseURL env =
          ⟨false, "❌ GOOGLE_CALLBACK_URL should end with \x27/auth/callback\x27, got: "
            ++ url.pathname⟩) := by
  by_cases h : jsIncludes url.pathname "/auth/callback" = true
  · refine ⟨?_, fun _ => ?_, fun hf => ?_⟩
    · simp [validateCallbackUrl, hs, hne, hp, h]
    · simp [validateCallbackUrl, hs, hne, hp, h]
    · rw [h] at hf
      exact absurd hf (by decide)
  · have hf : jsIncludes url.pathname "/auth/callback" = false := by
      cases hb : jsIncludes url.pathname "/auth/callback"
      · rfl
      · exact absurd hb h
    refine ⟨?_, fun ht => absurd ht h, fun _ => ?_⟩
    · simp [validateCallbackUrl, hs, hne, hp, hf]
    · simp [validateCallbackUrl, hs, hne, hp, hf]

/-- Witness for C3: a URL whose path holds `/auth/callback` strictly inside
(not as a suffix) is accepted, and the message echoes the full URL. -/
theorem C3_callback_path_containment_witness :
    validateCallbackUrl parseMid envMid =
      ⟨true, "✅ GOOGLE_CALLBACK_URL is properly formatted: "
        ++ "http://h/auth/callback/extra"⟩ :=
  (C3_callback_path_containment parseMid envMid "http://h/auth/callback/extra"
      ⟨"/auth/callback/extra"⟩ (by decide) (by decide) (by decide)).2.1
    (by decide)

/-- C4: the config-file check succeeds exactly when the file is present,
readable and its text contains the module identifier; a missing file gives
the not-found failure, a read error gives a failure carrying the error
text, and the check is a total function so no exception escapes. -/
theorem C4_config_file_check :
    (∀ fs : ConfigFileState,
      ((checkConfigFile fs).success = true ↔
        ∃ text, fs = ConfigFileState.content text ∧
          jsIncludes text googleAuthModuleId = true))
    ∧ checkConfigFile ConfigFileState.absent =
        ⟨false, "❌ medusa-config.ts file not found"⟩
    ∧ (∀ e, checkConfigFile (ConfigFileState.readError e) =
        ⟨false, "❌ Error reading medusa-config.ts: " ++ e⟩)
    ∧ (∀ text, jsIncludes text googleAuthModuleId = false →
        checkConfigFile (ConfigFileState.content text) =
          ⟨false, "❌ Google Auth Module not found in medusa-config.ts"⟩)
    ∧ (∀ text, jsIncludes text googleAuthModuleId = true →
        checkConfigFile (ConfigFileState.content text) =
          ⟨true, "✅ Google Auth Module is configured in medusa-config.ts"⟩) := by
  refine ⟨?_, rfl, fun e => rfl, ?_, ?_⟩
  · intro fs
    cases fs with
    | absent => simp [checkConfigFile]
    | readError e => simp [checkConfigFile]
    | content text =>
      by_cases h : jsIncludes text googleAuthModuleId = true
      · simp [checkConfigFile, h]
      · have hf : jsIncludes text googleAuthModuleId = false := by
          cases hb : jsIncludes text googleAuthModuleId
          · rfl
          · exact absurd hb h
        simp [checkConfigFile, hf]
  · intro text h
    simp [checkConfigFile, h]
  · intro text h
    simp [checkConfigFile, h]

/-- Witness for C4: a config text without the module identifier yields the
module-not-found failure. -/
theorem C4_config_file_check_witness :
    checkConfigFile (ConfigFileState.content "export default defineConfig") =
      ⟨false, "❌ Google Auth Module not found in medusa-config.ts"⟩ :=
  C4_config_file_check.2.2.2.1 "export default defineConfig" (by decide)

/-- C5: the callback-URL check is total: an absent (or empty, hence falsy)
variable yields the not-set failure, and a value the parser rejects yields
a failure whose message includes the offending literal value. -/
theorem C5_callback_total_error_handling (parseURL : String → Option URL)
    (env : Env) :
    ((env "GOOGLE_CALLBACK_URL" = none ∨ env "GOOGLE_CALLBACK_URL" = some "") →
      validateCallbackUrl parseURL env =
        ⟨false, "❌ GOOGLE_CALLBACK_URL is not set"⟩)
    ∧ (∀ s, env "GOOGLE_CALLBACK_URL" = some s → ¬s = "" → parseURL s = none →
        validateCallbackUrl parseURL env =
          ⟨false, "❌ GOOGLE_CALLBACK_URL is not a valid URL: " ++ s⟩)
    ∧ (∀ s, env "GOOGLE_CALLBACK_URL" = some s → ¬s = "" → parseURL s = none →
        jsIncludes (validateCallbackUrl parseURL env).message s = true)
    ∧ ∃ r : ValidationResult, validateCallbackUrl parseURL env = r := by
  refine ⟨?_, ?_, ?_, ⟨validateCallbackUrl parseURL env, rfl⟩⟩
  · rintro (h | h) <;> simp [validateCallbackUrl, h]
  · intro s hs hne hp
    simp [validateCallbackUrl, hs, hne, hp]
  · intro s hs hne hp
    have hmsg : validateCallbackUrl parseURL env =
        ⟨false, "❌ GOOGLE_CALLBACK_URL is not a valid URL: " ++ s⟩ := by
      simp [validateCallbackUrl, hs, hne, hp]
    rw [hmsg]
    exact jsIncludes_append_right _ _

/-- Witness for C5: `not-a-url` with a rejecting parser yields the
invalid-URL failure whose message includes the offending value. -/
theorem C5_callback_total_error_handling_witness :
    validateCallbackUrl parseNever envBadUrl =
      ⟨false, "❌ GOOGLE_CALLBACK_URL is not a valid URL: " ++ "not-a-url"⟩
    ∧ jsIncludes (validateCallbackUrl parseNever envBadUrl).message
        "not-a-url" = true :=
  ⟨(C5_callback_total_error_handling parseNever envBadUrl).2.1 "not-a-url"
      (by decide) (by decide) rfl,
    (C5_callback_total_error_handling parseNever envBadUrl).2.2.1 "not-a-url"
      (by decide) (by decide) rfl⟩

/-- C6: the aggregated sequence is exactly the three environment-variable
results in list order, then the callback-URL result, then the config-file
result (five results), and the printed report groups the messages under the
three headings in the same order. -/
theorem C6_aggregation_order (env : Env) (parseURL : String → Option URL)
    (fs : ConfigFileState) :
    allResults env parseURL fs =
      validateEnvironmentVariables env ++
        [validateCallbackUrl parseURL env, checkConfigFile fs]
    ∧ (allResults env parseURL fs).length = 5
    ∧ allResults env parseURL fs =
        [checkEnvVar env "GOOGLE_CLIENT_ID",
          checkEnvVar env "GOOGLE_CLIENT_SECRET",
          checkEnvVar env "GOOGLE_CALLBACK_URL",
          validateCallbackUrl parseURL env, checkConfigFile fs]
    ∧ reportLines env parseURL fs =
        ["Environment Variables:",
          "  " ++ (checkEnvVar env "GOOGLE_CLIENT_ID").message,
          "  " ++ (checkEnvVar env "GOOGLE_CLIENT_SECRET").message,
          "  " ++ (checkEnvVar env "GOOGLE_CALLBACK_URL").message,
          "Callback URL:",
          "  " ++ (validateCallbackUrl parseURL env).message,
          "Configuration:",
          "  " ++ (checkConfigFile fs).message] := by
  refine ⟨rfl, ?_, rfl, rfl⟩
  simp [allResults, validateEnvironmentVariables, requiredVars]

/-- C7: with `.env` absent and a template present, the Setup Tool creates
`.env` with contents byte-identical to the template; whenever `.env`
already exists the tool emits the already-exists message and leaves the
filesystem unchanged, so a re-run after a successful copy is a no-op. -/
theorem C7_setup_copy_idempotent (fs : SetupFS) (tmpl : String)
    (habs : fs.envFile = none) (htpl : fs.templateFile = some tmpl) :
    (createEnvFile fs).1.envFile = some tmpl
    ∧ (createEnvFile fs).1.templateFile = some tmpl
    ∧ (∀ fs2 : SetupFS, fs2.envFile.isSome = true →
        (createEnvFile fs2).1 = fs2 ∧
        (createEnvFile fs2).2 = [alreadyExistsMsg, requiredVarsLine])
    ∧ (createEnvFile (createEnvFile fs).1).1 = (createEnvFile fs).1 := by
  have h1 : createEnvFile fs =
      ({ fs with envFile := some tmpl },
        [createdMsg,
          "📝 Please update the following variables in your .env file:"]) := by
    simp [createEnvFile, habs, htpl]
  refine ⟨by rw [h1], by simp [h1, htpl], ?_, ?_⟩
  · intro fs2 h
    obtain ⟨v, hv⟩ := Option.isSome_iff_exists.mp h
    constructor <;> simp [createEnvFile, hv]
  · rw [h1]
    simp [createEnvFile]

/-- Witness for C7: from the concrete start state, `.env` is created with
the template's contents and a second run changes nothing. -/
theorem C7_setup_copy_idempotent_witness :
    (createEnvFile setupStart).1.envFile =
      some "GOOGLE_CLIENT_ID=your_google_client_id"
    ∧ (createEnvFile (createEnvFile setupStart).1).1 =
      (createEnvFile setupStart).1 :=
  have h := C7_setup_copy_idempotent setupStart
    "GOOGLE_CLIENT_ID=your_google_client_id" rfl rfl
  ⟨h.1, h.2.2.2⟩

/-- C8: the callback-URL check is deterministic: two environment snapshots
agreeing on `GOOGLE_CALLBACK_URL` yield identical results, in particular
the same success flag and the same message. -/
theorem C8_callback_deterministic (parseURL : String → Option URL)
    (env1 env2 : Env)
    (h : env1 "GOOGLE_CALLBACK_URL" = env2 "GOOGLE_CALLBACK_URL") :
    validateCallbackUrl parseURL env1 = validateCallbackUrl parseURL env2
    ∧ (validateCallbackUrl parseURL env1).success =
        (validateCallbackUrl parseURL env2).success
    ∧ (validateCallbackUrl parseURL env1).message =
        (validateCallbackUrl parseURL env2).message := by
  have he : validateCallbackUrl parseURL env1 = validateCallbackUrl parseURL env2 := by
    unfold validateCallbackUrl
    rw [h]
  exact ⟨he, by rw [he], by rw [he]⟩

/-- Witness for C8: two concrete snapshots agreeing on the callback URL and
differing elsewhere give identical results. -/
theorem C8_callback_deterministic_witness :
    validateCallbackUrl parseLocalhost envA = validateCallbackUrl parseLocalhost envB :=
  (C8_callback_deterministic parseLocalhost envA envB (by decide)).1

/-- C9: the placeholder heuristic agrees with the two substring tests
alone; the two exact-equality literals are redundant because both contain
the substring `your_`. -/
theorem C9_placeholder_equality_redundant (value : String) :
    isPlaceholderValue value = placeholderSubstringsOnly value :=
  placeholderValue_eq_or value

/-- C10: any non-empty value containing neither `your_` nor `_here` —
whitespace-only strings included — yields the configured success result,
so no further format validation is applied. -/
theorem C10_no_format_validation (env : Env) (varName value : String)
    (hv : env varName = some value) (hne : ¬value = "")
    (h1 : jsIncludes value "your_" = false)
    (h2 : jsIncludes value "_here" = false) :
    checkEnvVar env varName = ⟨true, configuredMsg varName⟩ := by
  have hp : isPlaceholderValue value = false := by
    rw [placeholderValue_eq_or, h1, h2]
    rfl
  simp [checkEnvVar, hv, hne, hp]

/-- Witness for C10: a whitespace-only client id is accepted as
configured. -/
theorem C10_no_format_validation_witness :
    checkEnvVar envWhitespace "GOOGLE_CLIENT_ID" =
      ⟨true, configuredMsg "GOOGLE_CLIENT_ID"⟩ :=
  C10_no_format_validation envWhitespace "GOOGLE_CLIENT_ID" "   "
    (by decide) (by decide) (by decide) (by decide)
